import Mathlib

/-!
Verification development for `music_links_enricher.py`.

The Python module is embedded shallowly.  The network (Spotify, Deezer,
MusicBrainz, Discogs HTTP endpoints) is modelled by a `World` structure of
response oracles: each endpoint is a function from the request parameters to
`Except String (status × payload)`, where `Except.error` models the
`requests` call raising an exception and `Except.ok (st, p)` models a
completed HTTP round trip with status code `st` and (already parsed) JSON
payload `p`.  The external similarity function `fuzz.token_sort_ratio` is
modelled by the oracle field `tokenSortScore`.  Every embedded function also
returns the list of network events (calls and `time.sleep` pauses) it
performed, in order, so that call-pattern and throttling properties can be
stated.  The `World` also carries `appleMusicPreview`, a fact about the
environment (whether an Apple Music preview would be available) that the
program may or may not consult.
-/

/-- One network round trip performed by the program, identified by endpoint
and request parameters, mirroring the `requests.get`/`requests.post` calls
in the source. -/
inductive NetCall where
  | spAuth : NetCall
  | spSearchAlbumArtist (album artistName : String) : NetCall
  | spSearchAlbumOnly (album : String) : NetCall
  | spAlbumTracks (albumId : String) : NetCall
  | spSearchTrack (song artistName : String) : NetCall
  | spSearchArtist (artistName : String) : NetCall
  | dzSearchAlbumArtist (artistName album : String) : NetCall
  | dzSearchAlbumOnly (album : String) : NetCall
  | dzAlbum (albumId : String) : NetCall
  | dzSearchTrack (artistName song : String) : NetCall
  | dzSearchArtist (artistName : String) : NetCall
  | mbRecording (artistName album : String) : NetCall
  | discogsSearch (artistName album : String) : NetCall
deriving DecidableEq

/-- An observable side effect: a network call or a `time.sleep`. -/
inductive NetEvent where
  | call (c : NetCall) : NetEvent
  | sleep (secs : Nat) : NetEvent
deriving DecidableEq

/-- The external service behind a network call. -/
inductive Prov where
  | spotify : Prov
  | deezer : Prov
  | musicbrainz : Prov
  | discogs : Prov
deriving DecidableEq

/-- Which external service a call goes to. -/
def NetCall.prov : NetCall → Prov
  | NetCall.spAuth => Prov.spotify
  | NetCall.spSearchAlbumArtist _ _ => Prov.spotify
  | NetCall.spSearchAlbumOnly _ => Prov.spotify
  | NetCall.spAlbumTracks _ => Prov.spotify
  | NetCall.spSearchTrack _ _ => Prov.spotify
  | NetCall.spSearchArtist _ => Prov.spotify
  | NetCall.dzSearchAlbumArtist _ _ => Prov.deezer
  | NetCall.dzSearchAlbumOnly _ => Prov.deezer
  | NetCall.dzAlbum _ => Prov.deezer
  | NetCall.dzSearchTrack _ _ => Prov.deezer
  | NetCall.dzSearchArtist _ => Prov.deezer
  | NetCall.mbRecording _ _ => Prov.musicbrainz
  | NetCall.discogsSearch _ _ => Prov.discogs

/-- `true` for a sleep, and for a call exactly when it goes to provider `p`. -/
def evInProv (p : Prov) : NetEvent → Bool
  | NetEvent.sleep _ => true
  | NetEvent.call c => decide (NetCall.prov c = p)

/-- A Spotify album-search result item: `name`, `artists[0].name`, `id`,
`external_urls.spotify`. -/
structure SpAlbum where
  name : String
  artistName : String
  id : String
  url : String
deriving DecidableEq

/-- A track object from Spotify's album-tracks endpoint: `name` and the
nullable `preview_url`. -/
structure SpTrack where
  name : String
  preview_url : Option String
deriving DecidableEq

/-- A Spotify track-search result item: `external_urls.spotify`,
`album.name` and the nullable `preview_url`. -/
structure SpTrackItem where
  url : String
  albumName : String
  preview_url : Option String
deriving DecidableEq

/-- A Deezer album-search result item: `title`, `artist.name`, `id`,
`link`, `release_date` (defaulting to the empty string). -/
structure DzAlbum where
  title : String
  artistName : String
  id : String
  link : String
  release_date : String
deriving DecidableEq

/-- A Deezer track object: `title`, the nullable `preview`, and
`album.title` (meaningful for track-search results). -/
structure DzTrack where
  title : String
  preview : Option String
  albumTitle : String
deriving DecidableEq

/-- The environment all network calls run against.  Spotify endpoints
additionally receive the bearer token the program sends. -/
structure World where
  tokenSortScore : String → String → Nat
  spotifyAuth : Except String (Nat × Option String)
  spSearchAlbumArtist : Option String → String → String → Except String (Nat × List SpAlbum)
  spSearchAlbumOnly : Option String → String → Except String (Nat × List SpAlbum)
  spAlbumTracks : Option String → String → Except String (Nat × List SpTrack)
  spSearchTrack : Option String → String → String → Except String (Nat × List SpTrackItem)
  spSearchArtist : Option String → String → Except String (Nat × List String)
  dzSearchAlbumArtist : String → String → Except String (Nat × List DzAlbum)
  dzSearchAlbumOnly : String → Except String (Nat × List DzAlbum)
  dzAlbum : String → Except String (Nat × List DzTrack)
  dzSearchTrack : String → String → Except String (Nat × List DzTrack)
  dzSearchArtist : String → Except String (Nat × List String)
  mbRecording : String → String → Except String (Nat × List String)
  discogsSearch : String → String → Except String (List (List String))
  appleMusicPreview : Option String

/-- `rate_limit(delay=2.0)`: a blocking sleep, recorded as an event. -/
def rate_limit (delay : Nat) : List NetEvent :=
  [NetEvent.sleep delay]

/-- Drop leading whitespace characters. -/
def dropWhileWs : List Char → List Char
  | [] => []
  | c :: rest => if c.isWhitespace then dropWhileWs rest else c :: rest

/-- Python's `str.strip()`: remove leading and trailing whitespace. -/
def pyStrip (s : String) : String :=
  String.mk ((dropWhileWs (dropWhileWs s.data.reverse).reverse))

/-- Split a character list on a separator character, Python
`str.split(sep)` semantics (always at least one group). -/
def splitCharsOn (sep : Char) : List Char → List (List Char)
  | [] => [[]]
  | c :: rest =>
    let r := splitCharsOn sep rest
    if c == sep then [] :: r
    else
      match r with
      | [] => [[c]]
      | g :: gs => (c :: g) :: gs

/-- Python's `artist.split("&")`. -/
def pySplitAmp (s : String) : List String :=
  (splitCharsOn '&' s.data).map String.mk

/-- `clean_artist_name`: split at the first question mark, strip whitespace. -/
def clean_artist_name (artist : String) : String :=
  pyStrip (String.mk ((splitCharsOn '?' artist.data).headD []))

/-- `a` occurs at the head of `b` (character lists). -/
def listLeads : List Char → List Char → Bool
  | [], _ => true
  | _ :: _, [] => false
  | a :: as, b :: bs => a == b && listLeads as bs

/-- `n` occurs contiguously somewhere in `h` (character lists), the
semantics of Python's `in` on strings. -/
def listSubstr : List Char → List Char → Bool
  | n, [] => listLeads n []
  | n, h :: t => listLeads n (h :: t) || listSubstr n t

/-- The characters of `s`, lower-cased — models Python's `.lower()`. -/
def lowerChars (s : String) : List Char :=
  s.data.map Char.toLower

/-- `target.lower() in candidate.lower()`: case-insensitive substring test. -/
def strSubCI (target candidate : String) : Bool :=
  listSubstr (lowerChars target) (lowerChars candidate)

/-- `fuzzy_match(target, candidate, threshold=85)`: true when the
token-sort score reaches the threshold, or when `target` is a
case-insensitive substring of `candidate`.  The external
`fuzz.token_sort_ratio` is the parameter `sc`. -/
def fuzzy_match (sc : String → String → Nat) (target candidate : String) (threshold : Nat) : Bool :=
  decide (threshold ≤ sc target candidate) || strSubCI target candidate

/-- `authenticate_spotify()`: POST the token request; on HTTP 200 return
the (possibly absent) `access_token`, otherwise log and return `None`.
A raised transport exception propagates.  No sleep follows the call. -/
def authenticate_spotify (w : World) : Except String (Option String) × List NetEvent :=
  let ev := [NetEvent.call NetCall.spAuth]
  match w.spotifyAuth with
  | Except.error e => (Except.error e, ev)
  | Except.ok (st, tokOpt) =>
    if st == 200 then (Except.ok tokOpt, ev) else (Except.ok none, ev)

/-- Python truthiness of a nullable string: `None` and `""` are falsy. -/
def strTruthy : Option String → Bool
  | none => false
  | some s => s ≠ ""

/-- First track of a Spotify album listing whose `preview_url` is truthy. -/
def firstTruthySp : List SpTrack → Option String
  | [] => none
  | t :: ts =>
    match t.preview_url with
    | some p => if p ≠ "" then some p else firstTruthySp ts
    | none => firstTruthySp ts

/-- `get_spotify_album_preview(spotify_token, album_id)`: fetch the album's
tracks and return the first truthy `preview_url`; on non-200 or no preview
return `None`.  No `rate_limit` is ever performed here.  A raised
exception propagates (the caller wraps this in a `try`). -/
def get_spotify_album_preview (w : World) (tok : Option String) (album_id : String) :
    Except String (Option String) × List NetEvent :=
  let ev := [NetEvent.call (NetCall.spAlbumTracks album_id)]
  match w.spAlbumTracks tok album_id with
  | Except.error e => (Except.error e, ev)
  | Except.ok (st, tracks) =>
    if st == 200 then (Except.ok (firstTruthySp tracks), ev)
    else (Except.ok none, ev)

/-- `search_musicbrainz_for_album(artist, album)`: GET the recording query,
then `rate_limit()`; on HTTP 200 with a non-empty `recordings` list return
the titles, otherwise return `[]`.  The GET is not inside any `try`, so a
raised transport exception propagates to the caller (and the sleep is
skipped). -/
def search_musicbrainz_for_album (w : World) (artist album : String) :
    Except String (List String) × List NetEvent :=
  let ev := [NetEvent.call (NetCall.mbRecording artist album)]
  match w.mbRecording artist album with
  | Except.error e => (Except.error e, ev)
  | Except.ok (st, recs) =>
    let ev := ev ++ rate_limit 2
    if st == 200 then
      if recs.isEmpty then (Except.ok [], ev) else (Except.ok recs, ev)
    else (Except.ok [], ev)

/-- `get_discogs_album_tracks(artist, album)`: clean the artist name,
search Discogs, `rate_limit()`, and return the first result's tracklist;
every exception is caught and degrades to `[]` (with the sleep skipped
when the search itself raised). -/
def get_discogs_album_tracks (w : World) (artist album : String) :
    List String × List NetEvent :=
  let a := clean_artist_name artist
  let ev := [NetEvent.call (NetCall.discogsSearch a album)]
  match w.discogsSearch a album with
  | Except.error _ => ([], ev)
  | Except.ok results =>
    let ev := ev ++ rate_limit 2
    match results with
    | [] => ([], ev)
    | r :: _ => (r, ev)

/-- First album item accepted by the matcher pair
`fuzzy_match(album, name) and fuzzy_match(artist_name, artists[0].name)`
(the inner `for album_data in data['albums']['items']` loop). -/
def spFindAccepted (sc : String → String → Nat) (album artistName : String) :
    List SpAlbum → Option SpAlbum
  | [] => none
  | a :: rest =>
    if fuzzy_match sc album a.name 85 && fuzzy_match sc artistName a.artistName 85 then some a
    else spFindAccepted sc album artistName rest

/-- Process one Spotify album-search payload: find the first accepted
candidate; on acceptance fetch its tracks (no sleep after that GET) and
return the album link with the track names (track names empty when the
track fetch returned non-200).  `Except.error` models the track-fetch GET
raising, which the per-artist `try` of the caller catches. -/
def spProcessItems (w : World) (tok : Option String) (album artistName : String)
    (items : List SpAlbum) :
    Except String (Option (String × List String)) × List NetEvent :=
  match spFindAccepted w.tokenSortScore album artistName items with
  | none => (Except.ok none, [])
  | some a =>
    let ev := [NetEvent.call (NetCall.spAlbumTracks a.id)]
    match w.spAlbumTracks tok a.id with
    | Except.error e => (Except.error e, ev)
    | Except.ok (st, tracks) =>
      if st == 200 then (Except.ok (some (a.url, tracks.map SpTrack.name)), ev)
      else (Except.ok (some (a.url, [])), ev)

/-- The body of `get_spotify_link`'s per-artist `try` block: the
album+artist search, then (if that did not return) the broadened search on
album title only.  `Except.error` means an exception reached the
per-artist handler; `Except.ok none` means no acceptance; `Except.ok
(some (url, ts))` is the function's early return. -/
def spArtistAlbumStep (w : World) (tok : Option String) (album rawArtist : String) :
    Except String (Option (String × List String)) × List NetEvent :=
  let artistName := pyStrip rawArtist
  let ev1 := [NetEvent.call (NetCall.spSearchAlbumArtist album artistName)]
  match w.spSearchAlbumArtist tok album artistName with
  | Except.error e => (Except.error e, ev1)
  | Except.ok (st, items) =>
    let ev1 := ev1 ++ rate_limit 2
    let step1 :=
      if st == 200 then spProcessItems w tok album artistName items
      else (Except.ok none, [])
    match step1 with
    | (Except.error e, ev2) => (Except.error e, ev1 ++ ev2)
    | (Except.ok (some r), ev2) => (Except.ok (some r), ev1 ++ ev2)
    | (Except.ok none, ev2) =>
      let ev3 := [NetEvent.call (NetCall.spSearchAlbumOnly album)]
      match w.spSearchAlbumOnly tok album with
      | Except.error e => (Except.error e, ev1 ++ ev2 ++ ev3)
      | Except.ok (st2, items2) =>
        let ev3 := ev3 ++ rate_limit 2
        let step2 :=
          if st2 == 200 then spProcessItems w tok album artistName items2
          else (Except.ok none, [])
        match step2 with
        | (r, ev4) => (r, ev1 ++ ev2 ++ ev3 ++ ev4)

/-- Step 1 of `get_spotify_link`: the album tiers, per artist in order.
An exception in one artist's step is caught and the loop continues. -/
def spAlbumTier (w : World) (tok : Option String) (album : String) :
    List String → Option (String × List String) × List NetEvent
  | [] => (none, [])
  | a :: rest =>
    match spArtistAlbumStep w tok album a with
    | (Except.error _, ev) =>
      let (r, t) := spAlbumTier w tok album rest
      (r, ev ++ t)
    | (Except.ok (some r), ev) => (some r, ev)
    | (Except.ok none, ev) =>
      let (r, t) := spAlbumTier w tok album rest
      (r, ev ++ t)

/-- Inner loop of `get_spotify_link`'s step 2 for one song: try each
artist; the first search returning HTTP 200 with a non-empty `items` list
wins unconditionally (no matcher check).  Exceptions are caught per
(song, artist) pair. -/
def spTrackTierArtists (w : World) (tok : Option String) (song : String) :
    List String → Option String × List NetEvent
  | [] => (none, [])
  | a :: rest =>
    let artistName := pyStrip a
    let ev := [NetEvent.call (NetCall.spSearchTrack song artistName)]
    match w.spSearchTrack tok song artistName with
    | Except.error _ =>
      let (r, t) := spTrackTierArtists w tok song rest
      (r, ev ++ t)
    | Except.ok (st, items) =>
      let ev := ev ++ rate_limit 2
      if st == 200 then
        match items with
        | [] =>
          let (r, t) := spTrackTierArtists w tok song rest
          (r, ev ++ t)
        | t0 :: _ => (some t0.url, ev)
      else
        let (r, t) := spTrackTierArtists w tok song rest
        (r, ev ++ t)

/-- Step 2 of `get_spotify_link`: for each accumulated song, for each
artist, search for the track. -/
def spTrackTier (w : World) (tok : Option String) (artists : List String) :
    List String → Option String × List NetEvent
  | [] => (none, [])
  | s :: rest =>
    match spTrackTierArtists w tok s artists with
    | (some u, ev) => (some u, ev)
    | (none, ev) =>
      let (r, t) := spTrackTier w tok artists rest
      (r, ev ++ t)

/-- Step 3 of `get_spotify_link`: the artist-page fallback.  When the
search returns HTTP 200 with non-empty items, the source evaluates
`data['artists'][0]` — `data['artists']` is a dict, so this raises
`KeyError`, which the per-artist handler catches; hence this loop performs
its calls but never returns a link. -/
def spArtistTier (w : World) (tok : Option String) : List String → List NetEvent
  | [] => []
  | a :: rest =>
    let artistName := pyStrip a
    let ev := [NetEvent.call (NetCall.spSearchArtist artistName)]
    match w.spSearchArtist tok artistName with
    | Except.error _ => ev ++ spArtistTier w tok rest
    | Except.ok (_, _) =>
      let ev := ev ++ rate_limit 2
      ev ++ spArtistTier w tok rest

/-- `get_spotify_link(artist, album, possible_songs, spotify_token)`:
album tiers per artist, then the per-track tier, then the artist-page
tier; returns the link (or `None`) together with `spotify_tracks`. -/
def get_spotify_link (w : World) (artist album : String) (possible_songs : List String)
    (tok : Option String) :
    (Option String × List String) × List NetEvent :=
  let artist_list := pySplitAmp artist
  match spAlbumTier w tok album artist_list with
  | (some (url, tracks), ev) => ((some url, tracks), ev)
  | (none, ev1) =>
    match spTrackTier w tok artist_list possible_songs with
    | (some u, ev2) => ((some u, []), ev1 ++ ev2)
    | (none, ev2) =>
      let ev3 := spArtistTier w tok artist_list
      ((none, []), ev1 ++ ev2 ++ ev3)

/-- Stable insertion of a Deezer album into a list sorted by
`release_date` descending: placed before the first element whose date is
not greater, preserving original order among equal dates. -/
def dzInsDateDesc (x : DzAlbum) : List DzAlbum → List DzAlbum
  | [] => [x]
  | y :: ys =>
    if y.release_date ≤ x.release_date then x :: y :: ys
    else y :: dzInsDateDesc x ys

/-- `sorted(data['data'], key=lambda x: x.get('release_date', ''),
reverse=True)`: a stable sort by release date, newest first. -/
def dzSortByDateDesc : List DzAlbum → List DzAlbum
  | [] => []
  | x :: xs => dzInsDateDesc x (dzSortByDateDesc xs)

/-- First Deezer album accepted by `is_valid_match`, i.e.
`fuzzy_match(album, title) and fuzzy_match(artist_name, artist.name)`. -/
def dzFindAccepted (sc : String → String → Nat) (album artistName : String) :
    List DzAlbum → Option DzAlbum
  | [] => none
  | a :: rest =>
    if fuzzy_match sc album a.title 85 && fuzzy_match sc artistName a.artistName 85 then some a
    else dzFindAccepted sc album artistName rest

/-- Fetch a matched Deezer album's tracks (`album/{id}`): on HTTP 200 the
track titles, otherwise `[]`.  No sleep follows the GET; a raised
exception propagates (this GET is outside every `try` in the source). -/
def dzFetchTracks (w : World) (albumId : String) :
    Except String (List String) × List NetEvent :=
  let ev := [NetEvent.call (NetCall.dzAlbum albumId)]
  match w.dzAlbum albumId with
  | Except.error e => (Except.error e, ev)
  | Except.ok (st, tracks) =>
    if st == 200 then (Except.ok (tracks.map DzTrack.title), ev)
    else (Except.ok [], ev)

/-- Deezer album tier 1: per artist, `search_deezer_for_artist` (search
then `rate_limit()`), then the sorted candidate scan.  None of this is
inside a `try`, so a raised exception propagates out of
`get_deezer_link`. -/
def dzAlbumTier1 (w : World) (album : String) :
    List String → Except String (Option (String × List String)) × List NetEvent
  | [] => (Except.ok none, [])
  | a :: rest =>
    let an := pyStrip a
    let ev := [NetEvent.call (NetCall.dzSearchAlbumArtist an album)]
    match w.dzSearchAlbumArtist an album with
    | Except.error e => (Except.error e, ev)
    | Except.ok (st, items) =>
      let ev := ev ++ rate_limit 2
      if st == 200 then
        if items.isEmpty then
          match dzAlbumTier1 w album rest with
          | (r, t) => (r, ev ++ t)
        else
          match dzFindAccepted w.tokenSortScore album an (dzSortByDateDesc items) with
          | none =>
            match dzAlbumTier1 w album rest with
            | (r, t) => (r, ev ++ t)
          | some acc =>
            match dzFetchTracks w acc.id with
            | (Except.error e, t2) => (Except.error e, ev ++ t2)
            | (Except.ok ts, t2) => (Except.ok (some (acc.link, ts)), ev ++ t2)
      else
        match dzAlbumTier1 w album rest with
        | (r, t) => (r, ev ++ t)

/-- Inner artist loop of Deezer tier 2: does some artist in the list make
`is_valid_match` accept this album candidate? -/
def dzTier2ArtistMatch (sc : String → String → Nat) (album : String) (a : DzAlbum) :
    List String → Bool
  | [] => false
  | an :: rest =>
    if fuzzy_match sc album a.title 85 && fuzzy_match sc (pyStrip an) a.artistName 85 then true
    else dzTier2ArtistMatch sc album a rest

/-- Candidate scan of Deezer tier 2 (albums outer, artists inner); on
acceptance fetch the album's tracks and return. -/
def dzTier2Scan (w : World) (album : String) (artists : List String) :
    List DzAlbum → Except String (Option (String × List String)) × List NetEvent
  | [] => (Except.ok none, [])
  | a :: rest =>
    if dzTier2ArtistMatch w.tokenSortScore album a artists then
      match dzFetchTracks w a.id with
      | (Except.error e, ev) => (Except.error e, ev)
      | (Except.ok ts, ev) => (Except.ok (some (a.link, ts)), ev)
    else dzTier2Scan w album artists rest

/-- Deezer album tier 2: the broadened search on album title alone, then
`rate_limit()`, then the sorted scan.  Also outside every `try`. -/
def dzAlbumTier2 (w : World) (album : String) (artists : List String) :
    Except String (Option (String × List String)) × List NetEvent :=
  let ev := [NetEvent.call (NetCall.dzSearchAlbumOnly album)]
  match w.dzSearchAlbumOnly album with
  | Except.error e => (Except.error e, ev)
  | Except.ok (st, items) =>
    let ev := ev ++ rate_limit 2
    if st == 200 then
      if items.isEmpty then (Except.ok none, ev)
      else
        match dzTier2Scan w album artists (dzSortByDateDesc items) with
        | (r, t) => (r, ev ++ t)
    else (Except.ok none, ev)

/-- Deezer artist-page fallback: per artist (inside a `try`), search for
the artist and return the first result's `link` on HTTP 200 with
non-empty data. -/
def dzArtistTier (w : World) : List String → Option String × List NetEvent
  | [] => (none, [])
  | a :: rest =>
    let an := pyStrip a
    let ev := [NetEvent.call (NetCall.dzSearchArtist an)]
    match w.dzSearchArtist an with
    | Except.error _ =>
      let (r, t) := dzArtistTier w rest
      (r, ev ++ t)
    | Except.ok (st, links) =>
      let ev := ev ++ rate_limit 2
      if st == 200 then
        match links with
        | [] =>
          let (r, t) := dzArtistTier w rest
          (r, ev ++ t)
        | l :: _ => (some l, ev)
      else
        let (r, t) := dzArtistTier w rest
        (r, ev ++ t)

/-- `get_deezer_link(artist, album, possible_songs)`: album tier, then the
broadened album tier, then the artist-page tier.  There is no track tier;
`possible_songs` is never read.  Exceptions from the album tiers
propagate to the caller. -/
def get_deezer_link (w : World) (artist album : String) (possible_songs : List String) :
    Except String (Option String × List String) × List NetEvent :=
  let artist_list := pySplitAmp artist
  match dzAlbumTier1 w album artist_list with
  | (Except.error e, t1) => (Except.error e, t1)
  | (Except.ok (some (link, ts)), t1) => (Except.ok (some link, ts), t1)
  | (Except.ok none, t1) =>
    match dzAlbumTier2 w album artist_list with
    | (Except.error e, t2) => (Except.error e, t1 ++ t2)
    | (Except.ok (some (link, ts)), t2) => (Except.ok (some link, ts), t1 ++ t2)
    | (Except.ok none, t2) =>
      match dzArtistTier w artist_list with
      | (some l, t3) => (Except.ok (some l, []), t1 ++ t2 ++ t3)
      | (none, t3) => (Except.ok ((none : Option String), ([] : List String)), t1 ++ t2 ++ t3)

/-- First Deezer track whose `preview` is truthy (`'preview' in track and
track['preview']`). -/
def firstTruthyDz : List DzTrack → Option String
  | [] => none
  | t :: ts =>
    match t.preview with
    | some p => if p ≠ "" then some p else firstTruthyDz ts
    | none => firstTruthyDz ts

/-- Preview step 1, candidate scan: for each Deezer album whose title
passes `fuzzy_match(album_data['title'], album)` (result title as target,
no artist check), fetch its tracks (no sleep) and return the first truthy
preview. -/
def pvDzAlbumScan (w : World) (album : String) :
    List DzAlbum → Except String (Option String) × List NetEvent
  | [] => (Except.ok none, [])
  | a :: rest =>
    if fuzzy_match w.tokenSortScore a.title album 85 then
      let ev := [NetEvent.call (NetCall.dzAlbum a.id)]
      match w.dzAlbum a.id with
      | Except.error e => (Except.error e, ev)
      | Except.ok (st, tracks) =>
        if st == 200 then
          match firstTruthyDz tracks with
          | some p => (Except.ok (some p), ev)
          | none =>
            match pvDzAlbumScan w album rest with
            | (r, t) => (r, ev ++ t)
        else
          match pvDzAlbumScan w album rest with
          | (r, t) => (r, ev ++ t)
    else pvDzAlbumScan w album rest

/-- Preview step 1, artist loop (all inside one `try`): Deezer album
search per artist, `rate_limit()`, then the candidate scan.  An
`Except.error` aborts the remaining artists and is caught by the wrapper. -/
def pvDzTier1Go (w : World) (album : String) :
    List String → Except String (Option String) × List NetEvent
  | [] => (Except.ok none, [])
  | a :: rest =>
    let an := pyStrip a
    let ev := [NetEvent.call (NetCall.dzSearchAlbumArtist an album)]
    match w.dzSearchAlbumArtist an album with
    | Except.error e => (Except.error e, ev)
    | Except.ok (st, items) =>
      let ev := ev ++ rate_limit 2
      if st == 200 then
        if items.isEmpty then
          match pvDzTier1Go w album rest with
          | (r, t) => (r, ev ++ t)
        else
          match pvDzAlbumScan w album items with
          | (Except.error e, t) => (Except.error e, ev ++ t)
          | (Except.ok (some p), t) => (Except.ok (some p), ev ++ t)
          | (Except.ok none, t) =>
            match pvDzTier1Go w album rest with
            | (r, t2) => (r, ev ++ t ++ t2)
      else
        match pvDzTier1Go w album rest with
        | (r, t) => (r, ev ++ t)

/-- Preview step 1 with its `try`: an exception degrades to no preview. -/
def pvTier1 (w : World) (album : String) (artists : List String) :
    Option String × List NetEvent :=
  match pvDzTier1Go w album artists with
  | (Except.error _, t) => (none, t)
  | (Except.ok r, t) => (r, t)

/-- Preview step 2, track scan (pure): first Deezer track whose album
title passes `fuzzy_match(track['album']['title'], album)` and whose
preview is truthy. -/
def pvDzTrackScan (sc : String → String → Nat) (album : String) :
    List DzTrack → Option String
  | [] => none
  | t :: rest =>
    if fuzzy_match sc t.albumTitle album 85 then
      match t.preview with
      | some p => if p ≠ "" then some p else pvDzTrackScan sc album rest
      | none => pvDzTrackScan sc album rest
    else pvDzTrackScan sc album rest

/-- Preview step 2, artist loop for one song (each pair inside its own
`try`): Deezer track search, `rate_limit()`, then the scan. -/
def pvDzTrackArtists (w : World) (album song : String) :
    List String → Option String × List NetEvent
  | [] => (none, [])
  | a :: rest =>
    let an := pyStrip a
    let ev := [NetEvent.call (NetCall.dzSearchTrack an song)]
    match w.dzSearchTrack an song with
    | Except.error _ =>
      let (r, t) := pvDzTrackArtists w album song rest
      (r, ev ++ t)
    | Except.ok (st, items) =>
      let ev := ev ++ rate_limit 2
      if st == 200 then
        if items.isEmpty then
          let (r, t) := pvDzTrackArtists w album song rest
          (r, ev ++ t)
        else
          match pvDzTrackScan w.tokenSortScore album items with
          | some p => (some p, ev)
          | none =>
            let (r, t) := pvDzTrackArtists w album song rest
            (r, ev ++ t)
      else
        let (r, t) := pvDzTrackArtists w album song rest
        (r, ev ++ t)

/-- Preview step 2: Deezer track previews, songs outer, artists inner. -/
def pvTier2 (w : World) (album : String) (artists : List String) :
    List String → Option String × List NetEvent
  | [] => (none, [])
  | s :: rest =>
    match pvDzTrackArtists w album s artists with
    | (some p, ev) => (some p, ev)
    | (none, ev) =>
      let (r, t) := pvTier2 w album artists rest
      (r, ev ++ t)

/-- Preview step 3, candidate scan: for each Spotify album whose name
passes `fuzzy_match(album_item['name'], album)`, call
`get_spotify_album_preview` and return its result when truthy. -/
def pvSpAlbumScan (w : World) (tok : Option String) (album : String) :
    List SpAlbum → Except String (Option String) × List NetEvent
  | [] => (Except.ok none, [])
  | a :: rest =>
    if fuzzy_match w.tokenSortScore a.name album 85 then
      match get_spotify_album_preview w tok a.id with
      | (Except.error e, t) => (Except.error e, t)
      | (Except.ok (some p), t) =>
        if p ≠ "" then (Except.ok (some p), t)
        else
          match pvSpAlbumScan w tok album rest with
          | (r, t2) => (r, t ++ t2)
      | (Except.ok none, t) =>
        match pvSpAlbumScan w tok album rest with
        | (r, t2) => (r, t ++ t2)
    else pvSpAlbumScan w tok album rest

/-- Preview step 3, artist loop (all inside one `try`): Spotify album
search per artist, `rate_limit()`, then the candidate scan. -/
def pvSpTier3Go (w : World) (tok : Option String) (album : String) :
    List String → Except String (Option String) × List NetEvent
  | [] => (Except.ok none, [])
  | a :: rest =>
    let an := pyStrip a
    let ev := [NetEvent.call (NetCall.spSearchAlbumArtist album an)]
    match w.spSearchAlbumArtist tok album an with
    | Except.error e => (Except.error e, ev)
    | Except.ok (st, items) =>
      let ev := ev ++ rate_limit 2
      if st == 200 then
        if items.isEmpty then
          match pvSpTier3Go w tok album rest with
          | (r, t) => (r, ev ++ t)
        else
          match pvSpAlbumScan w tok album items with
          | (Except.error e, t) => (Except.error e, ev ++ t)
          | (Except.ok (some p), t) => (Except.ok (some p), ev ++ t)
          | (Except.ok none, t) =>
            match pvSpTier3Go w tok album rest with
            | (r, t2) => (r, ev ++ t ++ t2)
      else
        match pvSpTier3Go w tok album rest with
        | (r, t) => (r, ev ++ t)

/-- Preview step 3 with its `try`: an exception degrades to no preview. -/
def pvTier3 (w : World) (tok : Option String) (album : String) (artists : List String) :
    Option String × List NetEvent :=
  match pvSpTier3Go w tok album artists with
  | (Except.error _, t) => (none, t)
  | (Except.ok r, t) => (r, t)

/-- Preview step 4, track scan (pure): first Spotify track item whose
album name passes the matcher and whose `preview_url` is truthy. -/
def pvSpTrackScan (sc : String → String → Nat) (album : String) :
    List SpTrackItem → Option String
  | [] => none
  | t :: rest =>
    if fuzzy_match sc t.albumName album 85 then
      match t.preview_url with
      | some p => if p ≠ "" then some p else pvSpTrackScan sc album rest
      | none => pvSpTrackScan sc album rest
    else pvSpTrackScan sc album rest

/-- Preview step 4, artist loop for one song (the `try` wraps this whole
loop): Spotify track search, `rate_limit()`, then the scan. -/
def pvSpTrackArtists (w : World) (tok : Option String) (album song : String) :
    List String → Except String (Option String) × List NetEvent
  | [] => (Except.ok none, [])
  | a :: rest =>
    let an := pyStrip a
    let ev := [NetEvent.call (NetCall.spSearchTrack song an)]
    match w.spSearchTrack tok song an with
    | Except.error e => (Except.error e, ev)
    | Except.ok (st, items) =>
      let ev := ev ++ rate_limit 2
      if st == 200 then
        if items.isEmpty then
          match pvSpTrackArtists w tok album song rest with
          | (r, t) => (r, ev ++ t)
        else
          match pvSpTrackScan w.tokenSortScore album items with
          | some p => (Except.ok (some p), ev)
          | none =>
            match pvSpTrackArtists w tok album song rest with
            | (r, t) => (r, ev ++ t)
      else
        match pvSpTrackArtists w tok album song rest with
        | (r, t) => (r, ev ++ t)

/-- Preview step 4: Spotify track previews, songs outer; an exception in
one song's artist loop is caught and the next song is tried. -/
def pvTier4 (w : World) (tok : Option String) (album : String) (artists : List String) :
    List String → Option String × List NetEvent
  | [] => (none, [])
  | s :: rest =>
    match pvSpTrackArtists w tok album s artists with
    | (Except.error _, ev) =>
      let (r, t) := pvTier4 w tok album artists rest
      (r, ev ++ t)
    | (Except.ok (some p), ev) => (some p, ev)
    | (Except.ok none, ev) =>
      let (r, t) := pvTier4 w tok album artists rest
      (r, ev ++ t)

/-- `get_preview_url(artist, album, possible_songs, spotify_token)`:
Deezer album previews, then Deezer track previews, then Spotify album
previews, then Spotify track previews; first truthy preview wins.  The
function never raises and never consults Apple Music. -/
def get_preview_url (w : World) (artist album : String) (possible_songs : List String)
    (tok : Option String) : Option String × List NetEvent :=
  let artist_list := pySplitAmp artist
  match pvTier1 w album artist_list with
  | (some p, t1) => (some p, t1)
  | (none, t1) =>
    match pvTier2 w album artist_list possible_songs with
    | (some p, t2) => (some p, t1 ++ t2)
    | (none, t2) =>
      match pvTier3 w tok album artist_list with
      | (some p, t3) => (some p, t1 ++ t2 ++ t3)
      | (none, t3) =>
        match pvTier4 w tok album artist_list possible_songs with
        | (r, t4) => (r, t1 ++ t2 ++ t3 ++ t4)

/-- One input record: `{artist, album}`. -/
structure Release where
  artist : String
  album : String
deriving DecidableEq

/-- The loop body of `update_json_with_links` for one record: gather
MusicBrainz and Discogs evidence, resolve Spotify and Deezer links,
extend the evidence with the providers' tracks, resolve the preview, and
return the key/value assignments performed on the record, in order.
`Except.error` models an uncaught exception escaping the loop body. -/
def enrichRelease (w : World) (tok : Option String) (r : Release) :
    Except String (List (String × Option String)) × List NetEvent :=
  match search_musicbrainz_for_album w r.artist r.album with
  | (Except.error e, t1) => (Except.error e, t1)
  | (Except.ok mb, t1) =>
    let (dg, t2) := get_discogs_album_tracks w r.artist r.album
    let possible_songs := mb ++ dg
    let ((sl, spTracks), t3) := get_spotify_link w r.artist r.album possible_songs tok
    match get_deezer_link w r.artist r.album possible_songs with
    | (Except.error e, t4) => (Except.error e, t1 ++ t2 ++ t3 ++ t4)
    | (Except.ok (dl, dzTracks), t4) =>
      let possible_songs2 := possible_songs ++ (spTracks ++ dzTracks)
      let (pv, t5) := get_preview_url w r.artist r.album possible_songs2 tok
      (Except.ok [("spotify_link", sl), ("deezer_link", dl), ("preview_url", pv)],
       t1 ++ t2 ++ t3 ++ t4 ++ t5)

/-- The `for album_data in data` loop of `update_json_with_links`: each
record in turn; an uncaught exception aborts the whole loop (there is no
per-record handler), so later records are not processed. -/
def runReleases (w : World) (tok : Option String) :
    List Release → Except String (List (Release × List (String × Option String))) × List NetEvent
  | [] => (Except.ok [], [])
  | r :: rest =>
    match enrichRelease w tok r with
    | (Except.error e, t) => (Except.error e, t)
    | (Except.ok l, t) =>
      match runReleases w tok rest with
      | (Except.error e, t2) => (Except.error e, t ++ t2)
      | (Except.ok ls, t2) => (Except.ok ((r, l) :: ls), t ++ t2)

/-- `update_json_with_links(file_path)` without the file plumbing:
authenticate Spotify once (a `None` token on failure), then enrich every
record; the enriched records are written back only when no exception
escaped. -/
def update_json_with_links (w : World) (releases : List Release) :
    Except String (List (Release × List (String × Option String))) × List NetEvent :=
  match authenticate_spotify w with
  | (Except.error e, t0) => (Except.error e, t0)
  | (Except.ok tok, t0) =>
    match runReleases w tok releases with
    | (Except.error e, t) => (Except.error e, t0 ++ t)
    | (Except.ok out, t) => (Except.ok out, t0 ++ t)

/-- The successive values of `possible_songs` during one record's
resolution (lines 517–527 of the source): after the MusicBrainz search,
after adding Discogs tracks, and after adding the Spotify and Deezer
tracks.  Empty when the MusicBrainz search raised; two entries when the
Deezer resolution raised. -/
def evidenceStates (w : World) (tok : Option String) (r : Release) : List (List String) :=
  match search_musicbrainz_for_album w r.artist r.album with
  | (Except.error _, _) => []
  | (Except.ok mb, _) =>
    let p1 := mb
    let (dg, _) := get_discogs_album_tracks w r.artist r.album
    let p2 := p1 ++ dg
    let ((_, spTracks), _) := get_spotify_link w r.artist r.album p2 tok
    match get_deezer_link w r.artist r.album p2 with
    | (Except.error _, _) => [p1, p2]
    | (Except.ok (_, dzTracks), _) => [p1, p2, p2 ++ (spTracks ++ dzTracks)]

/-- `a` is an initial segment of `b`. -/
def isHeadSeg : List String → List String → Bool
  | [], _ => true
  | _ :: _, [] => false
  | x :: xs, y :: ys => x == y && isHeadSeg xs ys

/-- Consecutive entries are initial segments of their successors. -/
def evChainOk : List (List String) → Bool
  | [] => true
  | [_] => true
  | a :: b :: rest => isHeadSeg a b && evChainOk (b :: rest)

/-- The `(album, artist)` parameters of the Spotify album+artist searches
in a trace, in order. -/
def albumArtistQueries : List NetEvent → List (String × String)
  | [] => []
  | NetEvent.call (NetCall.spSearchAlbumArtist al ar) :: rest => (al, ar) :: albumArtistQueries rest
  | _ :: rest => albumArtistQueries rest

/-- The `(artist, album)` parameters of the Deezer album+artist searches
in a trace, in order. -/
def dzAAQueries : List NetEvent → List (String × String)
  | [] => []
  | NetEvent.call (NetCall.dzSearchAlbumArtist ar al) :: rest => (ar, al) :: dzAAQueries rest
  | _ :: rest => dzAAQueries rest

/-- Does the trace contain a Deezer track-search call? -/
def hasDzTrackCall : List NetEvent → Bool
  | [] => false
  | NetEvent.call (NetCall.dzSearchTrack _ _) :: _ => true
  | _ :: rest => hasDzTrackCall rest

/-- Does the trace contain a Spotify call? -/
def hasSpCall : List NetEvent → Bool
  | [] => false
  | NetEvent.call c :: rest =>
    if NetCall.prov c == Prov.spotify then true else hasSpCall rest
  | _ :: rest => hasSpCall rest

/-- Two network calls adjacent with no sleep between them. -/
def adjacentCalls : List NetEvent → Bool
  | NetEvent.call _ :: NetEvent.call _ :: _ => true
  | _ :: rest => adjacentCalls rest
  | [] => false

/-- Does the trace contain any sleep? -/
def hasSleep : List NetEvent → Bool
  | [] => false
  | NetEvent.sleep _ :: _ => true
  | _ :: rest => hasSleep rest

/-- A response that is not a successful round trip: either the request
raised, or it completed with a status other than 200. -/
def respBad {α : Type} : Except String (Nat × α) → Bool
  | Except.error _ => true
  | Except.ok (st, _) => !(st == 200)

/-- A world in which every endpoint completes with HTTP 200 and an empty
result list, authentication succeeds, the similarity score is always 0,
and no Apple Music preview exists. -/
def emptyWorld : World where
  tokenSortScore := fun _ _ => 0
  spotifyAuth := Except.ok (200, some "tok")
  spSearchAlbumArtist := fun _ _ _ => Except.ok (200, [])
  spSearchAlbumOnly := fun _ _ => Except.ok (200, [])
  spAlbumTracks := fun _ _ => Except.ok (200, [])
  spSearchTrack := fun _ _ _ => Except.ok (200, [])
  spSearchArtist := fun _ _ => Except.ok (200, [])
  dzSearchAlbumArtist := fun _ _ => Except.ok (200, [])
  dzSearchAlbumOnly := fun _ => Except.ok (200, [])
  dzAlbum := fun _ => Except.ok (200, [])
  dzSearchTrack := fun _ _ => Except.ok (200, [])
  dzSearchArtist := fun _ => Except.ok (200, [])
  mbRecording := fun _ _ => Except.ok (200, [])
  discogsSearch := fun _ _ => Except.ok []
  appleMusicPreview := none

/-- A world where an Apple Music preview exists for the release, Deezer
has nothing, and Spotify has a matching album with a track preview. -/
def worldC1 : World :=
  { emptyWorld with
    tokenSortScore := fun _ _ => 100
    spSearchAlbumArtist := fun _ _ _ =>
      Except.ok (200, [⟨"X", "A", "spalb1", "sp.example/album"⟩])
    spAlbumTracks := fun _ _ => Except.ok (200, [⟨"T1", some "sp.example/preview"⟩])
    appleMusicPreview := some "apple.example/preview" }

/-- A world where both Deezer album tiers find nothing, a Deezer track
search would return a result with a preview, and the Deezer artist search
succeeds. -/
def worldC3 : World :=
  { emptyWorld with
    dzSearchTrack := fun _ _ =>
      Except.ok (200, [⟨"Song1", some "dz.example/trackpreview", "X"⟩])
    dzSearchArtist := fun _ => Except.ok (200, ["dz.example/artist"]) }

/-- A world where a Spotify track search succeeds (used to exercise the
Spotify per-track tier). -/
def worldC3sp : World :=
  { emptyWorld with
    spSearchTrack := fun _ _ _ =>
      Except.ok (200, [⟨"sp.example/track", "X", none⟩]) }

/-- A world where the MusicBrainz request raises a transport exception
and the Discogs search raises too. -/
def worldC4 : World :=
  { emptyWorld with
    mbRecording := fun _ _ => Except.error "boom"
    discogsSearch := fun _ _ => Except.error "dg" }

/-- A world where Spotify authentication fails (HTTP 401) while Deezer
can still resolve an artist-page link. -/
def worldC6 : World :=
  { emptyWorld with
    spotifyAuth := Except.ok (401, none)
    dzSearchArtist := fun _ => Except.ok (200, ["dz.example/artist"]) }

/-- A world where every Spotify search completes with HTTP 401. -/
def worldC6bad : World :=
  { emptyWorld with
    spSearchAlbumArtist := fun _ _ _ => Except.ok (401, [])
    spSearchAlbumOnly := fun _ _ => Except.ok (401, [])
    spSearchTrack := fun _ _ _ => Except.ok (401, [])
    spSearchArtist := fun _ _ => Except.ok (401, []) }

theorem listSubstr_nil_left : ∀ h, listSubstr [] h = true
  | [] => rfl
  | _ :: t => by simp [listSubstr, listLeads]

theorem isHeadSeg_append (l m : List String) : isHeadSeg l (l ++ m) = true := by
  induction l with
  | nil => rfl
  | cons x xs ih => simp [isHeadSeg, ih]

theorem isHeadSeg_append_assoc (l m n : List String) :
    isHeadSeg (l ++ m) (l ++ (m ++ n)) = true := by
  rw [← List.append_assoc]
  exact isHeadSeg_append _ _

/-- Claim C8: for all strings `target` and `candidate` and every
threshold, `fuzzy_match` returns true whenever `target` is a
case-insensitive substring of `candidate`, whatever the token-similarity
score — the substring check bypasses the threshold entirely. -/
theorem c8_substring_bypasses_threshold (sc : String → String → Nat)
    (target candidate : String) (threshold : Nat)
    (h : strSubCI target candidate = true) :
    fuzzy_match sc target candidate threshold = true := by
  unfold fuzzy_match
  rw [h]
  simp

/-- Claim C8 witness: `"Live"` is a case-insensitive substring of
`"Album Title Live Edition"`, so the matcher accepts under a
score function that always returns 0. -/
theorem c8_witness :
    fuzzy_match (fun _ _ => 0) "Live" "Album Title Live Edition" 85 = true :=
  c8_substring_bypasses_threshold (fun _ _ => 0) "Live" "Album Title Live Edition" 85 (by decide)

/-- Claim C10: the matcher applied to an empty target returns true for
every candidate and threshold, because the empty string is a substring of
everything. -/
theorem c10_empty_target_matches (sc : String → String → Nat)
    (candidate : String) (threshold : Nat) :
    fuzzy_match sc "" candidate threshold = true := by
  unfold fuzzy_match strSubCI
  have h : lowerChars "" = [] := rfl
  rw [h, listSubstr_nil_left]
  simp

/-- Claim C9: within one record's resolution the track-evidence sequence
grows monotonically — each successive value of `possible_songs` extends
the previous one (the previous value is an initial segment of the next),
so its length never decreases and no step truncates it. -/
theorem c9_evidence_monotone (w : World) (tok : Option String) (r : Release) :
    evChainOk (evidenceStates w tok r) = true := by
  unfold evidenceStates
  rcases hmb : search_musicbrainz_for_album w r.artist r.album with ⟨mbres, t1⟩
  cases mbres with
  | error e => rfl
  | ok mb =>
    rcases hdg : get_discogs_album_tracks w r.artist r.album with ⟨dg, t2⟩
    rcases hsp : get_spotify_link w r.artist r.album (mb ++ dg) tok with ⟨⟨sl, spT⟩, t3⟩
    rcases hdz : get_deezer_link w r.artist r.album (mb ++ dg) with ⟨dzres, t4⟩
    cases dzres with
    | error e => simp [hdg, hsp, hdz, evChainOk, isHeadSeg_append]
    | ok p =>
      rcases p with ⟨dl, dzT⟩
      simp [hdg, hsp, hdz, evChainOk, isHeadSeg_append, isHeadSeg_append_assoc]

/-- Claim C1 counterexample: in a world where an Apple Music preview
exists for the release and Spotify also has one (Deezer has nothing), the
resolved preview is the Spotify one, not the Apple Music one — preview
resolution never attempts Apple Music at all, so Apple-Music-first
priority is false. -/
theorem c1_counterexample :
    (get_preview_url worldC1 "A" "X" [] (some "tok")).fst = some "sp.example/preview" ∧
    worldC1.appleMusicPreview = some "apple.example/preview" :=
  ⟨rfl, rfl⟩

/-- Claim C2 counterexample: on a release with one artist `"A"` and album
`"X"`, the Spotify album tier issues exactly one album+artist search with
the plain title `"X"` — no query for `"X Deluxe"` or any other
edition-suffix variant — and likewise the Deezer tier. -/
theorem c2_counterexample :
    albumArtistQueries (get_spotify_link emptyWorld "A" "X" [] (some "tok")).snd = [("X", "A")] ∧
    (albumArtistQueries (get_spotify_link emptyWorld "A" "X" [] (some "tok")).snd).contains
      ("X Deluxe", "A") = false ∧
    dzAAQueries (get_deezer_link emptyWorld "A" "X" []).snd = [("A", "X")] :=
  ⟨rfl, rfl, rfl⟩

/-- Claim C3 counterexample: with track evidence `["Song1"]` available and
a Deezer track search that would return a result, `get_deezer_link` whose
album tiers fail nevertheless performs no track search at all and falls
through to the artist-page tier. -/
theorem c3_counterexample :
    (get_deezer_link worldC3 "A" "X" ["Song1"]).fst = Except.ok (some "dz.example/artist", []) ∧
    hasDzTrackCall (get_deezer_link worldC3 "A" "X" ["Song1"]).snd = false :=
  ⟨rfl, rfl⟩

/-- Claim C4 counterexample: a transport exception raised by the
MusicBrainz request of the first release escapes to the top level and
aborts the whole run — the trace shows no call was ever made for the
second release. -/
theorem c4_counterexample :
    update_json_with_links worldC4 [⟨"A", "X"⟩, ⟨"B", "Y"⟩] =
      (Except.error "boom",
       [NetEvent.call NetCall.spAuth, NetEvent.call (NetCall.mbRecording "A" "X")]) :=
  rfl

/-- Claim C5 counterexample: a run's event trace contains two network
calls with no sleep between them (the authentication POST is immediately
followed by the MusicBrainz GET), so not every network call is followed
by the fixed delay. -/
theorem c5_counterexample :
    adjacentCalls (update_json_with_links emptyWorld [⟨"A", "X"⟩]).snd = true :=
  rfl

/-- Claim C6 counterexample: when Spotify authentication fails (HTTP
401), the run still issues Spotify calls afterwards; the Spotify link is
null while Deezer resolution proceeds and produces a link. -/
theorem c6_counterexample :
    worldC6.spotifyAuth = Except.ok (401, none) ∧
    hasSpCall (update_json_with_links worldC6 [⟨"A", "X"⟩]).snd = true ∧
    (update_json_with_links worldC6 [⟨"A", "X"⟩]).fst =
      Except.ok [(⟨"A", "X"⟩,
        [("spotify_link", none), ("deezer_link", some "dz.example/artist"),
         ("preview_url", none)])] :=
  ⟨rfl, rfl, rfl⟩

/-- Claim C7 counterexample: a record for which nothing is found ends the
run with exactly three link keys — `spotify_link`, `deezer_link`,
`preview_url` — all null; no fourth (Apple Music) key is ever written. -/
theorem c7_counterexample :
    (update_json_with_links emptyWorld [⟨"A", "X"⟩]).fst =
      Except.ok [(⟨"A", "X"⟩,
        [("spotify_link", none), ("deezer_link", none), ("preview_url", none)])] :=
  rfl

/-- Every event of the trace is a sleep or a call to provider `p`. -/
def allProv (p : Prov) (t : List NetEvent) : Bool :=
  t.all (evInProv p)

theorem allProv_append (p : Prov) (a b : List NetEvent) :
    allProv p (a ++ b) = (allProv p a && allProv p b) := by
  simp [allProv, List.all_append]

theorem pvDzAlbumScan_dz (w : World) (album : String) :
    ∀ items, allProv Prov.deezer (pvDzAlbumScan w album items).snd = true := by
  intro items
  induction items with
  | nil => rfl
  | cons a rest ih =>
    unfold pvDzAlbumScan
    rcases hr : pvDzAlbumScan w album rest with ⟨r, t⟩
    rw [hr] at ih
    cases hfm : fuzzy_match w.tokenSortScore a.title album 85
    · simpa [hfm, hr] using ih
    · rcases hdz : w.dzAlbum a.id with e | ⟨st, tracks⟩
      · simp [hfm, hdz, allProv, evInProv, NetCall.prov]
      · cases hst : st == 200
        · simp_all [hfm, hdz, hst, hr, allProv, evInProv, NetCall.prov]
        · cases hft : firstTruthyDz tracks
          · simp_all [hfm, hdz, hst, hft, hr, allProv, evInProv, NetCall.prov]
          · simp [hfm, hdz, hst, hft, allProv, evInProv, NetCall.prov]

theorem pvDzTier1Go_dz (w : World) (album : String) :
    ∀ artists, allProv Prov.deezer (pvDzTier1Go w album artists).snd = true := by
  intro artists
  induction artists with
  | nil => rfl
  | cons a rest ih =>
    unfold pvDzTier1Go
    rcases hr : pvDzTier1Go w album rest with ⟨r, t⟩
    rw [hr] at ih
    rcases hs : w.dzSearchAlbumArtist (pyStrip a) album with e | ⟨st, items⟩
    · simp [hs, allProv, evInProv, NetCall.prov]
    · cases hst : st == 200
      · simp_all [allProv, evInProv, NetCall.prov, rate_limit]
      · cases hie : items.isEmpty
        · rcases hscan : pvDzAlbumScan w album items with ⟨rs, ts⟩
          have hts := pvDzAlbumScan_dz w album items
          rw [hscan] at hts
          cases rs with
          | error e2 => simp_all [allProv, evInProv, NetCall.prov, rate_limit]
          | ok o =>
            cases o with
            | none => simp_all [allProv, evInProv, NetCall.prov, rate_limit]
            | some p => simp_all [allProv, evInProv, NetCall.prov, rate_limit]
        · simp_all [allProv, evInProv, NetCall.prov, rate_limit]

theorem pvTier1_dz (w : World) (album : String) (artists : List String) :
    allProv Prov.deezer (pvTier1 w album artists).snd = true := by
  unfold pvTier1
  rcases h : pvDzTier1Go w album artists with ⟨r, t⟩
  have ht := pvDzTier1Go_dz w album artists
  rw [h] at ht
  cases r <;> simpa using ht

theorem pvDzTrackArtists_dz (w : World) (album song : String) :
    ∀ artists, allProv Prov.deezer (pvDzTrackArtists w album song artists).snd = true := by
  intro artists
  induction artists with
  | nil => rfl
  | cons a rest ih =>
    unfold pvDzTrackArtists
    rcases hr : pvDzTrackArtists w album song rest with ⟨r, t⟩
    rw [hr] at ih
    rcases hs : w.dzSearchTrack (pyStrip a) song with e | ⟨st, items⟩
    · simp_all [allProv, evInProv, NetCall.prov, rate_limit]
    · cases hst : st == 200
      · simp_all [allProv, evInProv, NetCall.prov, rate_limit]
      · cases hie : items.isEmpty
        · cases hscan : pvDzTrackScan w.tokenSortScore album items <;>
            simp_all [allProv, evInProv, NetCall.prov, rate_limit]
        · simp_all [allProv, evInProv, NetCall.prov, rate_limit]

theorem pvTier2_dz (w : World) (album : String) (artists : List String) :
    ∀ songs, allProv Prov.deezer (pvTier2 w album artists songs).snd = true := by
  intro songs
  induction songs with
  | nil => rfl
  | cons s rest ih =>
    unfold pvTier2
    rcases hr : pvTier2 w album artists rest with ⟨r, t⟩
    rw [hr] at ih
    rcases hs : pvDzTrackArtists w album s artists with ⟨rs, ts⟩
    have hts := pvDzTrackArtists_dz w album s artists
    rw [hs] at hts
    cases rs <;> simp_all [allProv, evInProv, NetCall.prov, rate_limit]

theorem get_spotify_album_preview_trace (w : World) (tok : Option String) (i : String) :
    (get_spotify_album_preview w tok i).snd = [NetEvent.call (NetCall.spAlbumTracks i)] := by
  unfold get_spotify_album_preview
  rcases h : w.spAlbumTracks tok i with e | ⟨st, tr⟩
  · rfl
  · cases hst : st == 200 <;> simp [hst]

theorem pvSpAlbumScan_sp (w : World) (tok : Option String) (album : String) :
    ∀ items, allProv Prov.spotify (pvSpAlbumScan w tok album items).snd = true := by
  intro items
  induction items with
  | nil => rfl
  | cons a rest ih =>
    unfold pvSpAlbumScan
    rcases hr : pvSpAlbumScan w tok album rest with ⟨r, t⟩
    rw [hr] at ih
    cases hfm : fuzzy_match w.tokenSortScore a.name album 85
    · simp_all [allProv, evInProv, NetCall.prov, rate_limit]
    · rcases hp : get_spotify_album_preview w tok a.id with ⟨pr, tp⟩
      have htp := get_spotify_album_preview_trace w tok a.id
      rw [hp] at htp
      simp only at htp
      subst htp
      cases pr with
      | error e => simp_all [allProv, evInProv, NetCall.prov, rate_limit]
      | ok o =>
        cases o with
        | none => simp_all [allProv, evInProv, NetCall.prov, rate_limit]
        | some p =>
          by_cases hpe : p = "" <;> simp_all [allProv, evInProv, NetCall.prov, rate_limit]

theorem pvSpTier3Go_sp (w : World) (tok : Option String) (album : String) :
    ∀ artists, allProv Prov.spotify (pvSpTier3Go w tok album artists).snd = true := by
  intro artists
  induction artists with
  | nil => rfl
  | cons a rest ih =>
    unfold pvSpTier3Go
    rcases hr : pvSpTier3Go w tok album rest with ⟨r, t⟩
    rw [hr] at ih
    rcases hs : w.spSearchAlbumArtist tok album (pyStrip a) with e | ⟨st, items⟩
    · simp_all [allProv, evInProv, NetCall.prov, rate_limit]
    · cases hst : st == 200
      · simp_all [allProv, evInProv, NetCall.prov, rate_limit]
      · cases hie : items.isEmpty
        · rcases hscan : pvSpAlbumScan w tok album items with ⟨rs, ts⟩
          have hts := pvSpAlbumScan_sp w tok album items
          rw [hscan] at hts
          cases rs with
          | error e2 => simp_all [allProv, evInProv, NetCall.prov, rate_limit]
          | ok o =>
            cases o with
            | none => simp_all [allProv, evInProv, NetCall.prov, rate_limit]
            | some p => simp_all [allProv, evInProv, NetCall.prov, rate_limit]
        · simp_all [allProv, evInProv, NetCall.prov, rate_limit]

theorem pvTier3_sp (w : World) (tok : Option String) (album : String) (artists : List String) :
    allProv Prov.spotify (pvTier3 w tok album artists).snd = true := by
  unfold pvTier3
  rcases h : pvSpTier3Go w tok album artists with ⟨r, t⟩
  have ht := pvSpTier3Go_sp w tok album artists
  rw [h] at ht
  cases r <;> simpa using ht

theorem pvSpTrackArtists_sp (w : World) (tok : Option String) (album song : String) :
    ∀ artists, allProv Prov.spotify (pvSpTrackArtists w tok album song artists).snd = true := by
  intro artists
  induction artists with
  | nil => rfl
  | cons a rest ih =>
    unfold pvSpTrackArtists
    rcases hr : pvSpTrackArtists w tok album song rest with ⟨r, t⟩
    rw [hr] at ih
    rcases hs : w.spSearchTrack tok song (pyStrip a) with e | ⟨st, items⟩
    · simp_all [allProv, evInProv, NetCall.prov, rate_limit]
    · cases hst : st == 200
      · simp_all [allProv, evInProv, NetCall.prov, rate_limit]
      · cases hie : items.isEmpty
        · cases hscan : pvSpTrackScan w.tokenSortScore album items <;>
            simp_all [allProv, evInProv, NetCall.prov, rate_limit]
        · simp_all [allProv, evInProv, NetCall.prov, rate_limit]

theorem pvTier4_sp (w : World) (tok : Option String) (album : String) (artists : List String) :
    ∀ songs, allProv Prov.spotify (pvTier4 w tok album artists songs).snd = true := by
  intro songs
  induction songs with
  | nil => rfl
  | cons s rest ih =>
    unfold pvTier4
    rcases hr : pvTier4 w tok album artists rest with ⟨r, t⟩
    rw [hr] at ih
    rcases hs : pvSpTrackArtists w tok album s artists with ⟨rs, ts⟩
    have hts := pvSpTrackArtists_sp w tok album s artists
    rw [hs] at hts
    cases rs with
    | error e => simp_all [allProv, evInProv, NetCall.prov, rate_limit]
    | ok o => cases o <;> simp_all [allProv, evInProv, NetCall.prov, rate_limit]

/-- Claim C1 (amended): preview-link resolution attempts the album-then-
track fallback against Deezer first and then Spotify — there is no Apple
Music tier at all — and the first of these providers yielding a truthy
preview wins: every run's preview trace is a block of Deezer calls
followed by a block of Spotify calls. -/
theorem c1_preview_deezer_before_spotify (w : World) (artist album : String)
    (songs : List String) (tok : Option String) :
    ∃ t1 t2, (get_preview_url w artist album songs tok).snd = t1 ++ t2 ∧
      allProv Prov.deezer t1 = true ∧ allProv Prov.spotify t2 = true := by
  rcases h1 : pvTier1 w album (pySplitAmp artist) with ⟨r1, tt1⟩
  have ht1 := pvTier1_dz w album (pySplitAmp artist)
  rw [h1] at ht1
  simp only at ht1
  rcases h2 : pvTier2 w album (pySplitAmp artist) songs with ⟨r2, tt2⟩
  have ht2 := pvTier2_dz w album (pySplitAmp artist) songs
  rw [h2] at ht2
  simp only at ht2
  rcases h3 : pvTier3 w tok album (pySplitAmp artist) with ⟨r3, tt3⟩
  have ht3 := pvTier3_sp w tok album (pySplitAmp artist)
  rw [h3] at ht3
  simp only at ht3
  rcases h4 : pvTier4 w tok album (pySplitAmp artist) songs with ⟨r4, tt4⟩
  have ht4 := pvTier4_sp w tok album (pySplitAmp artist) songs
  rw [h4] at ht4
  simp only at ht4
  unfold get_preview_url
  cases r1 with
  | some p => exact ⟨tt1, [], by simp [h1], ht1, rfl⟩
  | none =>
    cases r2 with
    | some p =>
      refine ⟨tt1 ++ tt2, [], by simp [h1, h2], ?_, rfl⟩
      simp [allProv_append, ht1, ht2]
    | none =>
      cases r3 with
      | some p =>
        refine ⟨tt1 ++ tt2, tt3, by simp [h1, h2, h3], ?_, ht3⟩
        simp [allProv_append, ht1, ht2]
      | none =>
        refine ⟨tt1 ++ tt2, tt3 ++ tt4, by simp [h1, h2, h3, h4], ?_, ?_⟩
        · simp [allProv_append, ht1, ht2]
        · simp [allProv_append, ht3, ht4]

theorem albumArtistQueries_append (a b : List NetEvent) :
    albumArtistQueries (a ++ b) = albumArtistQueries a ++ albumArtistQueries b := by
  induction a with
  | nil => rfl
  | cons x rest ih =>
    cases x with
    | sleep s => simpa [albumArtistQueries] using ih
    | call c => cases c <;> simp [albumArtistQueries, ih]

theorem albumArtistQueries_spProcessItems (w : World) (tok : Option String)
    (album an : String) (items : List SpAlbum) :
    albumArtistQueries (spProcessItems w tok album an items).snd = [] := by
  unfold spProcessItems
  cases hf : spFindAccepted w.tokenSortScore album an items with
  | none => rfl
  | some acc =>
    dsimp only
    rcases h : w.spAlbumTracks tok acc.id with e | ⟨st, tr⟩
    · rfl
    · cases hst : st == 200 <;> simp [hst, albumArtistQueries]

theorem albumArtistQueries_spArtistAlbumStep (w : World) (tok : Option String)
    (album a : String) :
    albumArtistQueries (spArtistAlbumStep w tok album a).snd = [(album, pyStrip a)] := by
  unfold spArtistAlbumStep
  dsimp only
  rcases h1 : w.spSearchAlbumArtist tok album (pyStrip a) with e | ⟨st, items⟩
  · simp [albumArtistQueries]
  · dsimp only
    have hp1 := albumArtistQueries_spProcessItems w tok album (pyStrip a) items
    rcases hs1 : spProcessItems w tok album (pyStrip a) items with ⟨r1, t1⟩
    simp only [hs1] at hp1
    rcases h2 : w.spSearchAlbumOnly tok album with e2 | ⟨st2, items2⟩
    · cases hst : st == 200
      · simp_all [albumArtistQueries, albumArtistQueries_append, rate_limit]
      · rcases r1 with e3 | o1
        · simp_all [albumArtistQueries, albumArtistQueries_append, rate_limit]
        · rcases o1 with _ | p1 <;>
            simp_all [albumArtistQueries, albumArtistQueries_append, rate_limit]
    · have hp2 := albumArtistQueries_spProcessItems w tok album (pyStrip a) items2
      rcases hs2 : spProcessItems w tok album (pyStrip a) items2 with ⟨r2, t2⟩
      simp only [hs2] at hp2
      cases hst : st == 200
      · cases hst2 : st2 == 200 <;>
          simp_all [albumArtistQueries, albumArtistQueries_append, rate_limit]
      · rcases r1 with e3 | o1
        · cases hst2 : st2 == 200 <;>
            simp_all [albumArtistQueries, albumArtistQueries_append, rate_limit]
        · rcases o1 with _ | p1 <;> cases hst2 : st2 == 200 <;>
            simp_all [albumArtistQueries, albumArtistQueries_append, rate_limit]

theorem spAlbumTier_queries_of_none (w : World) (tok : Option String) (album : String) :
    ∀ artists, (spAlbumTier w tok album artists).fst = none →
      albumArtistQueries (spAlbumTier w tok album artists).snd
        = artists.map (fun a => (album, pyStrip a)) := by
  intro artists
  induction artists with
  | nil => intro _; rfl
  | cons a rest ih =>
    have hq := albumArtistQueries_spArtistAlbumStep w tok album a
    rcases hrest : spAlbumTier w tok album rest with ⟨rr, tr2⟩
    rw [hrest] at ih
    simp only at ih
    unfold spAlbumTier
    rcases hs : spArtistAlbumStep w tok album a with ⟨r, t⟩
    rw [hs] at hq
    simp only at hq
    rw [hrest]
    cases r with
    | error e =>
      intro hnone
      simp only at hnone
      simp [albumArtistQueries_append, hq, ih hnone]
    | ok o =>
      cases o with
      | some r2 =>
        intro hnone
        simp at hnone
      | none =>
        intro hnone
        simp only at hnone
        simp [albumArtistQueries_append, hq, ih hnone]

theorem dzAAQueries_append (a b : List NetEvent) :
    dzAAQueries (a ++ b) = dzAAQueries a ++ dzAAQueries b := by
  induction a with
  | nil => rfl
  | cons x rest ih =>
    cases x with
    | sleep s => simpa [dzAAQueries] using ih
    | call c => cases c <;> simp [dzAAQueries, ih]

theorem dzAAQueries_dzFetchTracks (w : World) (i : String) :
    dzAAQueries (dzFetchTracks w i).snd = [] := by
  unfold dzFetchTracks
  rcases h : w.dzAlbum i with e | ⟨st, tr⟩
  · rfl
  · cases hst : st == 200 <;> simp [hst, dzAAQueries]

theorem dzAlbumTier1_queries_of_none (w : World) (album : String) :
    ∀ artists, (dzAlbumTier1 w album artists).fst = Except.ok none →
      dzAAQueries (dzAlbumTier1 w album artists).snd
        = artists.map (fun a => (pyStrip a, album)) := by
  intro artists
  induction artists with
  | nil => intro _; rfl
  | cons a rest ih =>
    rcases hrest : dzAlbumTier1 w album rest with ⟨rr, tr2⟩
    rw [hrest] at ih
    simp only at ih
    unfold dzAlbumTier1
    dsimp only
    rcases hs : w.dzSearchAlbumArtist (pyStrip a) album with e | ⟨st, items⟩
    · intro hnone
      simp at hnone
    · dsimp only
      rw [hrest]
      cases hst : st == 200
      · intro hnone
        simp only at hnone
        simp_all [dzAAQueries, dzAAQueries_append, rate_limit]
      · cases hie : items.isEmpty
        · cases hf : dzFindAccepted w.tokenSortScore album (pyStrip a) (dzSortByDateDesc items) with
          | none =>
            intro hnone
            simp only at hnone
            simp_all [dzAAQueries, dzAAQueries_append, rate_limit]
          | some acc =>
            dsimp only
            have hft := dzAAQueries_dzFetchTracks w acc.id
            rcases hfetch : dzFetchTracks w acc.id with ⟨fr, ftr⟩
            rw [hfetch] at hft
            simp only at hft
            cases fr with
            | error e2 =>
              intro hnone
              simp at hnone
            | ok ts =>
              intro hnone
              simp at hnone
        · intro hnone
          simp only at hnone
          simp_all [dzAAQueries, dzAAQueries_append, rate_limit]

/-- Claim C2 (amended): in the first tier, for each artist in the artist
list in order, the pipeline calls the album search exactly once per
artist, with the plain album title only — there is no enumeration of
edition-suffix title variants — and when an artist's search is accepted
the remaining artists are not queried (here stated for the exhaustive
case: when the tier accepts nothing, the issued album+artist queries are
exactly one plain-title query per artist, in order, for Spotify and for
Deezer alike). -/
theorem c2_album_tier_one_plain_query_per_artist :
    (∀ (w : World) (tok : Option String) (album : String) (artists : List String),
      (spAlbumTier w tok album artists).fst = none →
        albumArtistQueries (spAlbumTier w tok album artists).snd
          = artists.map (fun a => (album, pyStrip a))) ∧
    (∀ (w : World) (album : String) (artists : List String),
      (dzAlbumTier1 w album artists).fst = Except.ok none →
        dzAAQueries (dzAlbumTier1 w album artists).snd
          = artists.map (fun a => (pyStrip a, album))) :=
  ⟨fun w tok album artists => spAlbumTier_queries_of_none w tok album artists,
   fun w album artists => dzAlbumTier1_queries_of_none w album artists⟩

/-- Claim C2 witness: on the all-empty world with artists `["A"]` and
album `"X"`, both tiers accept nothing and each issues exactly the single
plain-title query. -/
theorem c2_witness :
    albumArtistQueries (spAlbumTier emptyWorld (some "tok") "X" ["A"]).snd
      = ["A"].map (fun a => ("X", pyStrip a)) ∧
    dzAAQueries (dzAlbumTier1 emptyWorld "X" ["A"]).snd
      = ["A"].map (fun a => (pyStrip a, "X")) :=
  ⟨c2_album_tier_one_plain_query_per_artist.1 emptyWorld (some "tok") "X" ["A"] (by rfl),
   c2_album_tier_one_plain_query_per_artist.2 emptyWorld "X" ["A"] (by rfl)⟩

theorem hasDzTrackCall_append (a b : List NetEvent) :
    hasDzTrackCall (a ++ b) = (hasDzTrackCall a || hasDzTrackCall b) := by
  induction a with
  | nil => rfl
  | cons x rest ih =>
    cases x with
    | sleep s => simpa [hasDzTrackCall] using ih
    | call c => cases c <;> simp [hasDzTrackCall, ih]

theorem hasDzTrackCall_dzFetchTracks (w : World) (i : String) :
    hasDzTrackCall (dzFetchTracks w i).snd = false := by
  unfold dzFetchTracks
  rcases h : w.dzAlbum i with e | ⟨st, tr⟩
  · rfl
  · cases hst : st == 200 <;> simp [hst, hasDzTrackCall]

theorem hasDzTrackCall_dzAlbumTier1 (w : World) (album : String) :
    ∀ artists, hasDzTrackCall (dzAlbumTier1 w album artists).snd = false := by
  intro artists
  induction artists with
  | nil => rfl
  | cons a rest ih =>
    rcases hrest : dzAlbumTier1 w album rest with ⟨rr, tr2⟩
    rw [hrest] at ih
    simp only at ih
    unfold dzAlbumTier1
    dsimp only
    rcases hs : w.dzSearchAlbumArtist (pyStrip a) album with e | ⟨st, items⟩
    · simp [hasDzTrackCall]
    · dsimp only
      rw [hrest]
      cases hst : st == 200
      · simp_all [hasDzTrackCall, hasDzTrackCall_append, rate_limit]
      · cases hie : items.isEmpty
        · cases hf : dzFindAccepted w.tokenSortScore album (pyStrip a) (dzSortByDateDesc items) with
          | none => simp_all [hasDzTrackCall, hasDzTrackCall_append, rate_limit]
          | some acc =>
            dsimp only
            have hft := hasDzTrackCall_dzFetchTracks w acc.id
            rcases hfetch : dzFetchTracks w acc.id with ⟨fr, ftr⟩
            rw [hfetch] at hft
            simp only at hft
            cases fr <;> simp_all [hasDzTrackCall, hasDzTrackCall_append, rate_limit]
        · simp_all [hasDzTrackCall, hasDzTrackCall_append, rate_limit]

theorem hasDzTrackCall_dzTier2Scan (w : World) (album : String) (artists : List String) :
    ∀ items, hasDzTrackCall (dzTier2Scan w album artists items).snd = false := by
  intro items
  induction items with
  | nil => rfl
  | cons a rest ih =>
    unfold dzTier2Scan
    rcases hrest : dzTier2Scan w album artists rest with ⟨rr, tr2⟩
    rw [hrest] at ih
    simp only at ih
    cases hm : dzTier2ArtistMatch w.tokenSortScore album a artists
    · simp_all [hasDzTrackCall]
    · have hft := hasDzTrackCall_dzFetchTracks w a.id
      rcases hfetch : dzFetchTracks w a.id with ⟨fr, ftr⟩
      rw [hfetch] at hft
      simp only at hft
      cases fr <;> simp_all [hasDzTrackCall]

theorem hasDzTrackCall_dzAlbumTier2 (w : World) (album : String) (artists : List String) :
    hasDzTrackCall (dzAlbumTier2 w album artists).snd = false := by
  unfold dzAlbumTier2
  rcases hs : w.dzSearchAlbumOnly album with e | ⟨st, items⟩
  · rfl
  · dsimp only
    cases hst : st == 200
    · simp_all [hasDzTrackCall, rate_limit]
    · cases hie : items.isEmpty
      · have hsc := hasDzTrackCall_dzTier2Scan w album artists (dzSortByDateDesc items)
        rcases hscan : dzTier2Scan w album artists (dzSortByDateDesc items) with ⟨rs, ts⟩
        rw [hscan] at hsc
        simp only at hsc
        simp_all [hasDzTrackCall, hasDzTrackCall_append, rate_limit]
      · simp_all [hasDzTrackCall, rate_limit]

theorem hasDzTrackCall_dzArtistTier (w : World) :
    ∀ artists, hasDzTrackCall (dzArtistTier w artists).snd = false := by
  intro artists
  induction artists with
  | nil => rfl
  | cons a rest ih =>
    unfold dzArtistTier
    rcases hrest : dzArtistTier w rest with ⟨rr, tr2⟩
    rw [hrest] at ih
    simp only at ih
    rcases hs : w.dzSearchArtist (pyStrip a) with e | ⟨st, links⟩
    · simp_all [hasDzTrackCall]
    · dsimp only
      cases hst : st == 200
      · simp_all [hasDzTrackCall, rate_limit]
      · cases links <;> simp_all [hasDzTrackCall, rate_limit]

theorem get_deezer_link_no_track_search (w : World) (artist album : String)
    (possible_songs : List String) :
    hasDzTrackCall (get_deezer_link w artist album possible_songs).snd = false := by
  unfold get_deezer_link
  dsimp only
  have h1 := hasDzTrackCall_dzAlbumTier1 w album (pySplitAmp artist)
  rcases ht1 : dzAlbumTier1 w album (pySplitAmp artist) with ⟨r1, t1⟩
  rw [ht1] at h1
  simp only at h1
  have h2 := hasDzTrackCall_dzAlbumTier2 w album (pySplitAmp artist)
  rcases ht2 : dzAlbumTier2 w album (pySplitAmp artist) with ⟨r2, t2⟩
  rw [ht2] at h2
  simp only at h2
  have h3 := hasDzTrackCall_dzArtistTier w (pySplitAmp artist)
  rcases ht3 : dzArtistTier w (pySplitAmp artist) with ⟨r3, t3⟩
  rw [ht3] at h3
  simp only at h3
  rcases r1 with e1 | o1
  · simpa using h1
  · rcases o1 with _ | ⟨l1, ts1⟩
    · rcases r2 with e2 | o2
      · simp_all [hasDzTrackCall_append]
      · rcases o2 with _ | ⟨l2, ts2⟩
        · rcases r3 with _ | l3 <;> simp_all [hasDzTrackCall_append]
        · simp_all [hasDzTrackCall_append]
    · simpa using h1

/-- Claim C3 (amended): only the Spotify ladder has a per-track tier:
when both Spotify album tiers produce no accepted candidate, the
per-track tier (the accumulated evidence crossed with each artist,
first non-empty result accepted with no matcher check) decides the
Spotify link; the Deezer ladder performs no track search at all and falls
through from the broadened album tier directly to the artist-page tier. -/
theorem c3_track_tier_spotify_only :
    (∀ (w : World) (artist album : String) (songs : List String) (tok : Option String)
        (u : String),
      (spAlbumTier w tok album (pySplitAmp artist)).fst = none →
      (spTrackTier w tok (pySplitAmp artist) songs).fst = some u →
      (get_spotify_link w artist album songs tok).fst = (some u, [])) ∧
    (∀ (w : World) (artist album : String) (songs : List String),
      hasDzTrackCall (get_deezer_link w artist album songs).snd = false) := by
  constructor
  · intro w artist album songs tok u h1 h2
    unfold get_spotify_link
    dsimp only
    rcases ha : spAlbumTier w tok album (pySplitAmp artist) with ⟨ra, ta⟩
    rw [ha] at h1
    simp only at h1
    subst h1
    rcases ht : spTrackTier w tok (pySplitAmp artist) songs with ⟨rt, tt⟩
    rw [ht] at h2
    simp only at h2
    subst h2
    rfl
  · intro w artist album songs
    exact get_deezer_link_no_track_search w artist album songs

/-- Claim C3 witness: in a world where the Spotify album tiers find
nothing and the track search succeeds, the Spotify link is the track
result; and the Deezer ladder for the same inputs performs no track
search. -/
theorem c3_witness :
    (get_spotify_link worldC3sp "A" "X" ["S"] (some "tok")).fst
      = (some "sp.example/track", []) ∧
    hasDzTrackCall (get_deezer_link worldC3sp "A" "X" ["S"]).snd = false :=
  ⟨c3_track_tier_spotify_only.1 worldC3sp "A" "X" ["S"] (some "tok") "sp.example/track"
      (by rfl) (by rfl),
   c3_track_tier_spotify_only.2 worldC3sp "A" "X" ["S"]⟩

/-- Claim C4 (amended): Discogs evidence collection never raises (every
exception degrades to an empty list), but the MusicBrainz recording
search catches nothing: a transport exception raised there escapes the
per-release loop and aborts the whole run, so subsequent releases are not
processed (the Deezer album tiers are likewise uncaught). -/
theorem c4_exception_propagation :
    (∀ (w : World) (artist album e : String),
      w.discogsSearch (clean_artist_name artist) album = Except.error e →
      (get_discogs_album_tracks w artist album).fst = []) ∧
    (∀ (w : World) (st : Nat) (tk : Option String) (e : String) (r : Release)
        (rest : List Release),
      w.spotifyAuth = Except.ok (st, tk) →
      w.mbRecording r.artist r.album = Except.error e →
      (update_json_with_links w (r :: rest)).fst = Except.error e) := by
  constructor
  · intro w artist album e h
    unfold get_discogs_album_tracks
    dsimp only
    rw [h]
  · intro w st tk e r rest h1 h2
    have henr : ∀ tok, (enrichRelease w tok r).fst = Except.error e := by
      intro tok
      have hmb : (search_musicbrainz_for_album w r.artist r.album).fst = Except.error e := by
        unfold search_musicbrainz_for_album
        dsimp only
        rw [h2]
      unfold enrichRelease
      rcases hm : search_musicbrainz_for_album w r.artist r.album with ⟨mr, mt⟩
      rw [hm] at hmb
      simp only at hmb
      subst hmb
      rfl
    have hrun : ∀ tok, (runReleases w tok (r :: rest)).fst = Except.error e := by
      intro tok
      unfold runReleases
      rcases he : enrichRelease w tok r with ⟨er, et⟩
      have h5 := henr tok
      rw [he] at h5
      simp only at h5
      subst h5
      rfl
    cases hst : st == 200
    · have hauth : authenticate_spotify w = (Except.ok none, [NetEvent.call NetCall.spAuth]) := by
        unfold authenticate_spotify
        rw [h1]
        simp [hst]
      unfold update_json_with_links
      rw [hauth]
      dsimp only
      rcases hr : runReleases w none (r :: rest) with ⟨rr, rt⟩
      have h6 := hrun none
      rw [hr] at h6
      simp only at h6
      subst h6
      rfl
    · have hauth : authenticate_spotify w = (Except.ok tk, [NetEvent.call NetCall.spAuth]) := by
        unfold authenticate_spotify
        rw [h1]
        simp [hst]
      unfold update_json_with_links
      rw [hauth]
      dsimp only
      rcases hr : runReleases w tk (r :: rest) with ⟨rr, rt⟩
      have h6 := hrun tk
      rw [hr] at h6
      simp only at h6
      subst h6
      rfl

/-- Claim C4 witness: in a world where the Discogs search raises,
evidence degrades to `[]`; in the same world, where the MusicBrainz
request raises, the whole two-release run aborts with that exception. -/
theorem c4_witness :
    (get_discogs_album_tracks worldC4 "A" "X").fst = [] ∧
    (update_json_with_links worldC4 [⟨"A", "X"⟩, ⟨"B", "Y"⟩]).fst = Except.error "boom" :=
  ⟨c4_exception_propagation.1 worldC4 "A" "X" "dg" rfl,
   c4_exception_propagation.2 worldC4 200 (some "tok") "boom" ⟨"A", "X"⟩ [⟨"B", "Y"⟩] rfl rfl⟩

/-- Claim C5 (amended): the search-style requests that complete without
raising are each followed by the fixed 2-second sleep (shown for the
MusicBrainz search), but not every network call is: the Spotify
album-preview track fetch performs no sleep at all, and the
authentication POST is not followed by any sleep either. -/
theorem c5_throttling_partial :
    (∀ (w : World) (a b : String) (st : Nat) (recs : List String),
      w.mbRecording a b = Except.ok (st, recs) →
      (search_musicbrainz_for_album w a b).snd
        = [NetEvent.call (NetCall.mbRecording a b), NetEvent.sleep 2]) ∧
    (∀ (w : World) (tok : Option String) (i : String),
      hasSleep (get_spotify_album_preview w tok i).snd = false) ∧
    (∀ w : World, (authenticate_spotify w).snd = [NetEvent.call NetCall.spAuth]) := by
  refine ⟨?_, ?_, ?_⟩
  · intro w a b st recs h
    unfold search_musicbrainz_for_album
    dsimp only
    rw [h]
    cases hst : st == 200
    · simp [hst, rate_limit]
    · cases hre : recs.isEmpty <;> simp [hst, hre, rate_limit]
  · intro w tok i
    rw [get_spotify_album_preview_trace]
    rfl
  · intro w
    unfold authenticate_spotify
    rcases h : w.spotifyAuth with e | ⟨st, tk⟩
    · rfl
    · dsimp only
      cases hst : st == 200 <;> simp [hst]

/-- Claim C5 witness: on the all-empty world the MusicBrainz search is
followed by exactly the 2-second sleep. -/
theorem c5_witness :
    (search_musicbrainz_for_album emptyWorld "A" "X").snd
      = [NetEvent.call (NetCall.mbRecording "A" "X"), NetEvent.sleep 2] :=
  c5_throttling_partial.1 emptyWorld "A" "X" 200 [] rfl

theorem spArtistAlbumStep_bad (w : World) (album a : String)
    (h1 : ∀ al an, respBad (w.spSearchAlbumArtist none al an) = true)
    (h2 : ∀ al, respBad (w.spSearchAlbumOnly none al) = true) :
    (spArtistAlbumStep w none album a).fst = Except.ok none ∨
      ∃ e, (spArtistAlbumStep w none album a).fst = Except.error e := by
  unfold spArtistAlbumStep
  dsimp only
  rcases hs : w.spSearchAlbumArtist none album (pyStrip a) with e | ⟨st, items⟩
  · exact Or.inr ⟨e, rfl⟩
  · have hb := h1 album (pyStrip a)
    rw [hs] at hb
    have hst : (st == 200) = false := by
      simp only [respBad] at hb
      cases hx : st == 200
      · rfl
      · rw [hx] at hb
        simp at hb
    dsimp only
    simp only [hst]
    rcases hs2 : w.spSearchAlbumOnly none album with e2 | ⟨st2, items2⟩
    · exact Or.inr ⟨e2, rfl⟩
    · have hb2 := h2 album
      rw [hs2] at hb2
      have hst2 : (st2 == 200) = false := by
        simp only [respBad] at hb2
        cases hx : st2 == 200
        · rfl
        · rw [hx] at hb2
          simp at hb2
      dsimp only
      simp only [hst2]
      exact Or.inl rfl

theorem spAlbumTier_bad (w : World) (album : String)
    (h1 : ∀ al an, respBad (w.spSearchAlbumArtist none al an) = true)
    (h2 : ∀ al, respBad (w.spSearchAlbumOnly none al) = true) :
    ∀ artists, (spAlbumTier w none album artists).fst = none := by
  intro artists
  induction artists with
  | nil => rfl
  | cons a rest ih =>
    unfold spAlbumTier
    rcases hrest : spAlbumTier w none album rest with ⟨rr, tr⟩
    rw [hrest] at ih
    simp only at ih
    subst ih
    have hstep := spArtistAlbumStep_bad w album a h1 h2
    rcases hs : spArtistAlbumStep w none album a with ⟨r, t⟩
    rw [hs] at hstep
    simp only at hstep
    rcases hstep with h | ⟨e, h⟩ <;> subst h <;> simp [hrest]

theorem spTrackTierArtists_bad (w : World) (song : String)
    (h : ∀ s an, respBad (w.spSearchTrack none s an) = true) :
    ∀ artists, (spTrackTierArtists w none song artists).fst = none := by
  intro artists
  induction artists with
  | nil => rfl
  | cons a rest ih =>
    unfold spTrackTierArtists
    dsimp only
    rcases hrest : spTrackTierArtists w none song rest with ⟨rr, tr⟩
    rw [hrest] at ih
    simp only at ih
    subst ih
    rcases hs : w.spSearchTrack none song (pyStrip a) with e | ⟨st, items⟩
    · simp [hrest]
    · have hb := h song (pyStrip a)
      rw [hs] at hb
      have hst : (st == 200) = false := by
        simp only [respBad] at hb
        cases hx : st == 200
        · rfl
        · rw [hx] at hb
          simp at hb
      dsimp only
      simp [hst, hrest]

theorem spTrackTier_bad (w : World) (artists : List String)
    (h : ∀ s an, respBad (w.spSearchTrack none s an) = true) :
    ∀ songs, (spTrackTier w none artists songs).fst = none := by
  intro songs
  induction songs with
  | nil => rfl
  | cons s rest ih =>
    unfold spTrackTier
    rcases hrest : spTrackTier w none artists rest with ⟨rr, tr⟩
    rw [hrest] at ih
    simp only at ih
    subst ih
    have ha := spTrackTierArtists_bad w s h artists
    rcases hs : spTrackTierArtists w none s artists with ⟨ra, ta⟩
    rw [hs] at ha
    simp only at ha
    subst ha
    simp [hrest]

theorem hasSpCall_append (a b : List NetEvent) :
    hasSpCall (a ++ b) = (hasSpCall a || hasSpCall b) := by
  induction a with
  | nil => rfl
  | cons x rest ih =>
    cases x with
    | sleep s => simpa [hasSpCall] using ih
    | call c => cases c <;> simp [hasSpCall, NetCall.prov, ih]

theorem hasSpCall_spArtistAlbumStep (w : World) (tok : Option String) (album a : String) :
    hasSpCall (spArtistAlbumStep w tok album a).snd = true := by
  unfold spArtistAlbumStep
  dsimp only
  rcases h1 : w.spSearchAlbumArtist tok album (pyStrip a) with e | ⟨st, items⟩
  · simp [hasSpCall, NetCall.prov]
  · dsimp only
    rcases hs1 : spProcessItems w tok album (pyStrip a) items with ⟨r1, t1⟩
    rcases h2 : w.spSearchAlbumOnly tok album with e2 | ⟨st2, items2⟩
    · cases hst : st == 200
      · simp_all [hasSpCall, NetCall.prov, rate_limit]
      · rcases r1 with e3 | o1
        · simp_all [hasSpCall, NetCall.prov, rate_limit]
        · rcases o1 with _ | p1 <;> simp_all [hasSpCall, NetCall.prov, rate_limit]
    · rcases hs2 : spProcessItems w tok album (pyStrip a) items2 with ⟨r2, t2⟩
      cases hst : st == 200
      · cases hst2 : st2 == 200 <;> simp_all [hasSpCall, NetCall.prov, rate_limit]
      · rcases r1 with e3 | o1
        · cases hst2 : st2 == 200 <;> simp_all [hasSpCall, NetCall.prov, rate_limit]
        · rcases o1 with _ | p1 <;> cases hst2 : st2 == 200 <;>
            simp_all [hasSpCall, NetCall.prov, rate_limit]

theorem hasSpCall_spAlbumTier (w : World) (tok : Option String) (album a : String)
    (rest : List String) :
    hasSpCall (spAlbumTier w tok album (a :: rest)).snd = true := by
  unfold spAlbumTier
  have h := hasSpCall_spArtistAlbumStep w tok album a
  rcases hs : spArtistAlbumStep w tok album a with ⟨r, t⟩
  rw [hs] at h
  simp only at h
  rcases hrest : spAlbumTier w tok album rest with ⟨rr, tr⟩
  rcases r with e | o
  · simp_all [hasSpCall_append]
  · rcases o with _ | p <;> simp_all [hasSpCall_append]

theorem splitCharsOn_ne_nil (sep : Char) : ∀ l, splitCharsOn sep l ≠ [] := by
  intro l
  induction l with
  | nil => simp [splitCharsOn]
  | cons c rest ih =>
    unfold splitCharsOn
    cases hc : c == sep
    · rcases hr : splitCharsOn sep rest with _ | ⟨g, gs⟩
      · exact absurd hr ih
      · simp [hc, hr]
    · simp [hc]

theorem hasSpCall_get_spotify_link (w : World) (artist album : String)
    (songs : List String) (tok : Option String) :
    hasSpCall (get_spotify_link w artist album songs tok).snd = true := by
  unfold get_spotify_link
  dsimp only
  rcases hsplit : pySplitAmp artist with _ | ⟨a, rest⟩
  · exfalso
    unfold pySplitAmp at hsplit
    rcases hsc : splitCharsOn '&' artist.data with _ | ⟨g, gs⟩
    · exact absurd hsc (splitCharsOn_ne_nil '&' artist.data)
    · rw [hsc] at hsplit
      simp at hsplit
  · have h := hasSpCall_spAlbumTier w tok album a rest
    rcases ht : spAlbumTier w tok album (a :: rest) with ⟨r, t⟩
    rw [ht] at h
    simp only at h
    rcases r with _ | ⟨url, tracks⟩
    · rcases htt : spTrackTier w tok (a :: rest) songs with ⟨rt, tt⟩
      rcases rt with _ | u <;> simp_all [hasSpCall_append]
    · simpa using h

theorem get_spotify_link_bad (w : World) (artist album : String) (songs : List String)
    (h1 : ∀ al an, respBad (w.spSearchAlbumArtist none al an) = true)
    (h2 : ∀ al, respBad (w.spSearchAlbumOnly none al) = true)
    (h3 : ∀ s an, respBad (w.spSearchTrack none s an) = true) :
    (get_spotify_link w artist album songs none).fst = (none, []) := by
  unfold get_spotify_link
  dsimp only
  have ha := spAlbumTier_bad w album h1 h2 (pySplitAmp artist)
  rcases hta : spAlbumTier w none album (pySplitAmp artist) with ⟨ra, ta⟩
  rw [hta] at ha
  simp only at ha
  subst ha
  have htt := spTrackTier_bad w (pySplitAmp artist) h3 songs
  rcases htb : spTrackTier w none (pySplitAmp artist) songs with ⟨rt, tt⟩
  rw [htb] at htt
  simp only at htt
  subst htt
  rfl

/-- Claim C6 (amended): Spotify authentication failure does not disable
the provider: the run proceeds with a null token and still issues Spotify
requests for every release (the album tier always makes at least one
Spotify call); when those token-less requests all fail (raise or return a
non-success status), the Spotify link resolves to null, while Deezer
resolution does not involve the Spotify token at all and can still
produce results. -/
theorem c6_auth_failure_not_isolating :
    (∀ (w : World) (artist album : String) (songs : List String),
      (∀ al an, respBad (w.spSearchAlbumArtist none al an) = true) →
      (∀ al, respBad (w.spSearchAlbumOnly none al) = true) →
      (∀ s an, respBad (w.spSearchTrack none s an) = true) →
      (get_spotify_link w artist album songs none).fst = (none, [])) ∧
    (∀ (w : World) (artist album : String) (songs : List String) (tok : Option String),
      hasSpCall (get_spotify_link w artist album songs tok).snd = true) :=
  ⟨fun w artist album songs ha hb hc => get_spotify_link_bad w artist album songs ha hb hc,
   fun w artist album songs tok => hasSpCall_get_spotify_link w artist album songs tok⟩

/-- Claim C6 witness: in a world where every token-less Spotify search
returns HTTP 401, the Spotify link is null, yet the trace still contains
Spotify calls. -/
theorem c6_witness :
    (get_spotify_link worldC6bad "A" "X" [] none).fst = (none, []) ∧
    hasSpCall (get_spotify_link worldC6bad "A" "X" [] none).snd = true :=
  ⟨c6_auth_failure_not_isolating.1 worldC6bad "A" "X" []
      (fun _ _ => rfl) (fun _ => rfl) (fun _ _ => rfl),
   c6_auth_failure_not_isolating.2 worldC6bad "A" "X" [] none⟩

/-- Claim C7 (amended): a record whose resolution completes without an
uncaught exception is given exactly three link keys — `spotify_link`,
`deezer_link` and `preview_url`, present with a null value when nothing
was found; no fourth (Apple Music) link key exists in the schema the
program writes. -/
theorem c7_three_link_keys (w : World) (tok : Option String) (r : Release)
    (l : List (String × Option String))
    (h : (enrichRelease w tok r).fst = Except.ok l) :
    l.map Prod.fst = ["spotify_link", "deezer_link", "preview_url"] := by
  unfold enrichRelease at h
  rcases hm : search_musicbrainz_for_album w r.artist r.album with ⟨mr, mt⟩
  rw [hm] at h
  cases mr with
  | error e => simp at h
  | ok mb =>
    dsimp only at h
    rcases hd : get_discogs_album_tracks w r.artist r.album with ⟨dg, dt⟩
    rw [hd] at h
    dsimp only at h
    rcases hsp : get_spotify_link w r.artist r.album (mb ++ dg) tok with ⟨⟨sl, spT⟩, t3⟩
    rw [hsp] at h
    dsimp only at h
    rcases hdz : get_deezer_link w r.artist r.album (mb ++ dg) with ⟨dzr, t4⟩
    rw [hdz] at h
    cases dzr with
    | error e => simp at h
    | ok p =>
      rcases p with ⟨dl, dzT⟩
      dsimp only at h
      rcases hpv : get_preview_url w r.artist r.album ((mb ++ dg) ++ (spT ++ dzT)) tok
        with ⟨pv, t5⟩
      rw [hpv] at h
      simp only [Except.ok.injEq] at h
      subst h
      rfl

/-- Claim C7 witness: on the all-empty world, the one record's
assignments carry exactly the three link keys, each null. -/
theorem c7_witness :
    ([("spotify_link", (none : Option String)), ("deezer_link", none),
        ("preview_url", none)].map Prod.fst)
      = ["spotify_link", "deezer_link", "preview_url"] :=
  c7_three_link_keys emptyWorld (some "tok") ⟨"A", "X"⟩
    [("spotify_link", none), ("deezer_link", none), ("preview_url", none)] rfl
